import Mathlib

/-!
Shallow embedding of the AzurKnowledge data parsing and export pipeline
(`src/azur_lane_data_parser.py`, class `AzurLaneDataParser`) and of the
progress tracker (`src/azur-lane-equipment-db/scripts/utils.py`,
`update_progress`), together with theorems settling the specification
claims about them.

Raw JSON records are embedded as structures whose fields are `Option`s:
`none` models a key absent from the JSON object, mirroring the Python
`dict.get(key, default)` accesses.  Python dicts keyed by ID are embedded
as association lists in insertion order, with insert-or-replace semantics
matching `d[k] = v`.  Machine integers do not overflow here (Python ints
are unbounded), so numbers are `Int`.
-/

set_option linter.unusedVariables false

/-- A value placed into a CSV cell: Python strings, ints, and lists of
ints are the shapes that reach `sanitize_csv_field` / `csv.DictWriter`
in this program. -/
inductive CsvValue where
  | str (s : String)
  | int (n : Int)
  | intList (l : List Int)
deriving DecidableEq

/-- Python `str([1, 2])` rendering of a list of ints. -/
def pythonListRepr (l : List Int) : String :=
  "[" ++ String.intercalate ", " (l.map toString) ++ "]"

/-- Embedding of `AzurLaneDataParser.sanitize_csv_field` (lines 415-420):
for a non-empty string whose first character is one of `=`, `+`, `-`,
`@`, tab, carriage return, prefix a single quote; otherwise return
`str(value)` (identity on strings, decimal rendering on ints, Python
list repr on lists). -/
def sanitize_csv_field (value : CsvValue) : String :=
  match value with
  | CsvValue.str s =>
    match s.data with
    | [] => s
    | c :: _ =>
      if c = '=' ∨ c = '+' ∨ c = '-' ∨ c = '@' ∨ c = '\t' ∨ c = '\r' then
        "'" ++ s
      else
        s
  | CsvValue.int n => toString n
  | CsvValue.intList l => pythonListRepr l

/-- The class-level `EQUIP_TYPES` table, in source (insertion) order. -/
def EQUIP_TYPES : List (Int × String) :=
  [(1, "DD Gun"), (2, "CL Gun"), (3, "CA Gun"), (4, "BB Gun"),
   (5, "Torpedo"), (6, "AA Gun"), (7, "Fighter"), (8, "Torpedo Bomber"),
   (9, "Dive Bomber"), (10, "Auxiliary"), (11, "CB Gun"), (12, "Seaplane"),
   (13, "Submarine Torpedo"), (14, "Depth Charge"),
   (15, "Anti-Submarine Aircraft"), (17, "Helicopter"), (18, "Goods")]

/-- The class-level `SHIP_TYPES` table, in source order. -/
def SHIP_TYPES : List (Int × String) :=
  [(1, "Destroyer"), (2, "Light Cruiser"), (3, "Heavy Cruiser"),
   (4, "Battlecruiser"), (5, "Battleship"), (6, "Light Carrier"),
   (7, "Aircraft Carrier"), (8, "Submarine"), (9, "Aviation Cruiser"),
   (10, "Aviation Battleship"), (11, "Torpedo Cruiser"), (12, "Repair Ship"),
   (13, "Monitor"), (17, "Submarine Carrier"), (18, "Large Cruiser"),
   (19, "Munition Ship"), (20, "Missile Destroyer"), (21, "Missile Cruiser"),
   (22, "Frigate")]

/-- The class-level `NATIONS` table, in source order. -/
def NATIONS : List (Int × String) :=
  [(0, "Universal"), (1, "Eagle Union"), (2, "Royal Navy"),
   (3, "Sakura Empire"), (4, "Iron Blood"), (5, "Dragon Empery"),
   (6, "Sardegna Empire"), (7, "Northern Parliament"), (8, "Iris Libre"),
   (9, "Vichya Dominion"), (10, "Iris Orthodoxy"), (11, "Tempesta"),
   (12, "META"), (13, "Unknown")]

/-- The class-level `RARITIES` table, in source order. -/
def RARITIES : List (Int × String) :=
  [(1, "Common"), (2, "Rare"), (3, "Elite"), (4, "Super Rare"),
   (5, "Ultra Rare"), (6, "Decisive")]

/-- First-match association-list lookup; on a list built with
python-dict insert semantics (unique keys) this coincides with
`dict.__getitem__`. -/
def alFind {K V : Type} [DecidableEq K] (m : List (K × V)) (k : K) : Option V :=
  match m with
  | [] => none
  | (a, b) :: t => if a = k then some b else alFind t k

/-- `TABLE.get(code, 'Unknown')` for the four lookup tables. -/
def lookupTbl (tbl : List (Int × String)) (k : Int) : String :=
  (alFind tbl k).getD "Unknown"

/-- Embedding of the `Equipment` dataclass (lines 15-37), with the same
field defaults. `type` is a Lean keyword, so the field is `type_`. -/
structure Equipment where
  id : Int
  name : String
  type_ : Int
  type_name : String := ""
  rarity : Int := 0
  nationality : Int := 0
  tech : Int := 0
  damage : List Int := []
  reload : List Int := []
  armor_modifiers : List Int := []
  ammo_type : Int := 0
  weapon_ids : List Int := []
  equip_parameters : List (String × Int) := []
  property_rate : List Int := []
  value_2 : Int := 0
  value_3 : Int := 0
  description : String := ""
  speciality : String := ""
  part_main : List Int := []
  part_sub : List Int := []
deriving DecidableEq

/-- Embedding of the `Ship` dataclass (lines 39-81).  Note: the source
declares growth fields only for ten of the twelve stats — there is no
`speed_growth` and no `luck_growth` field. -/
structure Ship where
  id : Int
  name : String
  english_name : String := ""
  type_ : Int := 0
  type_name : String := ""
  nationality : Int := 0
  rarity : Int := 0
  star : Int := 0
  armor_type : Int := 0
  hp : Int := 0
  firepower : Int := 0
  torpedo : Int := 0
  antiair : Int := 0
  aviation : Int := 0
  reload : Int := 0
  armor : Int := 0
  hit : Int := 0
  evasion : Int := 0
  speed : Int := 0
  luck : Int := 0
  antisub : Int := 0
  hp_growth : Int := 0
  firepower_growth : Int := 0
  torpedo_growth : Int := 0
  antiair_growth : Int := 0
  aviation_growth : Int := 0
  reload_growth : Int := 0
  armor_growth : Int := 0
  hit_growth : Int := 0
  evasion_growth : Int := 0
  antisub_growth : Int := 0
  equipment_proficiency : List Int := []
  base_list : List Int := []
  preload_count : List Int := []
deriving DecidableEq

/-- Embedding of the `Weapon` dataclass (lines 83-98). -/
structure Weapon where
  id : Int
  name : String := ""
  damage : Int := 0
  reload_max : Int := 0
  bullet_id : Int := 0
  barrage_id : Int := 0
  spawn_bound : String := ""
  fire_fx : String := ""
  type_ : Int := 0
  range : Int := 0
  angle : Int := 0
  min_range : Int := 0
  aim_type : Int := 0
deriving DecidableEq

/-- A raw record of `equip_data_statistics.json` as read by
`parse_equipment`; each field is `none` when the key is absent from the
JSON object. -/
structure EquipStatsRecord where
  name : Option String := none
  type_ : Option Int := none
  rarity : Option Int := none
  nationality : Option Int := none
  tech : Option Int := none
  weapon_id : Option (List Int) := none
  ammo : Option Int := none
  value_2 : Option Int := none
  value_3 : Option Int := none
  descrip : Option String := none
  speciality : Option String := none
  part_main : Option (List Int) := none
  part_sub : Option (List Int) := none
  property_rate : Option (List Int) := none
  equip_parameters : Option (List (String × Int)) := none
deriving DecidableEq

/-- A raw record of `equip_data_template.json`.  `parse_equipment` reads
only `damage`, `reload` and `armor_modifiers` from it; `rarity` stands
for the further keys such records may carry in the raw JSON, which the
code never reads. -/
structure EquipTemplateRecord where
  damage : Option (List Int) := none
  reload : Option (List Int) := none
  armor_modifiers : Option (List Int) := none
  rarity : Option Int := none
deriving DecidableEq

/-- A raw record of `ship_data_statistics.json` as read by
`parse_ships`. -/
structure ShipStatsRecord where
  name : Option String := none
  english_name : Option String := none
  type_ : Option Int := none
  nationality : Option Int := none
  rarity : Option Int := none
  star : Option Int := none
  armor_type : Option Int := none
  attrs : Option (List Int) := none
  attrs_growth : Option (List Int) := none
  equipment_proficiency : Option (List Int) := none
  base_list : Option (List Int) := none
  preload_count : Option (List Int) := none
deriving DecidableEq

/-- A raw record of `weapon_property.json` (or of the fallback
`bullet_template.json`) as read by `parse_weapons`. -/
structure WeaponRecord where
  damage : Option Int := none
  reload_max : Option Int := none
  bullet_ID : Option Int := none
  barrage_ID : Option Int := none
  spawn_bound : Option String := none
  fire_fx : Option String := none
  type_ : Option Int := none
  range : Option Int := none
  angle : Option Int := none
  min_range : Option Int := none
  aim_type : Option Int := none
deriving DecidableEq

/-- Construction of one `Equipment` entity from its statistics record
and optional template record (`parse_equipment`, lines 210-239).
`data.get(k, d)` becomes `Option.getD`; the `if equip_id in
equip_templates` overlay becomes the `match` on `template`. -/
def mkEquipment (id : Int) (data : EquipStatsRecord)
    (template : Option EquipTemplateRecord) : Equipment :=
  let e : Equipment :=
    { id := id
      name := data.name.getD "Unknown"
      type_ := data.type_.getD 0
      type_name := lookupTbl EQUIP_TYPES (data.type_.getD 0)
      rarity := data.rarity.getD 1
      nationality := data.nationality.getD 0
      tech := data.tech.getD 0
      weapon_ids := data.weapon_id.getD []
      ammo_type := data.ammo.getD 0
      value_2 := data.value_2.getD 0
      value_3 := data.value_3.getD 0
      description := data.descrip.getD ""
      speciality := data.speciality.getD ""
      part_main := data.part_main.getD []
      part_sub := data.part_sub.getD []
      property_rate := data.property_rate.getD []
      equip_parameters := data.equip_parameters.getD [] }
  match template with
  | some t =>
    { e with
      damage := t.damage.getD []
      reload := t.reload.getD []
      armor_modifiers := t.armor_modifiers.getD [] }
  | none => e

/-- Construction of one `Ship` entity from its statistics record
(`parse_ships`, lines 253-300).  The Python guard
`attrs[i] if len(attrs) > i else 0` is exactly `List.getD attrs i 0`;
absent `attrs` / `attrs_growth` keys default to `[0] * 12`.  The source
reads growth indices 0-8 and 11 only (there are no fields for indices 9
and 10, speed and luck). -/
def mkShip (id : Int) (data : ShipStatsRecord) : Ship :=
  let attrs := data.attrs.getD (List.replicate 12 0)
  let attrs_growth := data.attrs_growth.getD (List.replicate 12 0)
  { id := id
    name := data.name.getD "Unknown"
    english_name := data.english_name.getD ""
    type_ := data.type_.getD 0
    type_name := lookupTbl SHIP_TYPES (data.type_.getD 0)
    nationality := data.nationality.getD 0
    rarity := data.rarity.getD 1
    star := data.star.getD 1
    armor_type := data.armor_type.getD 1
    hp := attrs.getD 0 0
    firepower := attrs.getD 1 0
    torpedo := attrs.getD 2 0
    antiair := attrs.getD 3 0
    aviation := attrs.getD 4 0
    reload := attrs.getD 5 0
    armor := attrs.getD 6 0
    hit := attrs.getD 7 0
    evasion := attrs.getD 8 0
    speed := attrs.getD 9 0
    luck := attrs.getD 10 0
    antisub := attrs.getD 11 0
    hp_growth := attrs_growth.getD 0 0
    firepower_growth := attrs_growth.getD 1 0
    torpedo_growth := attrs_growth.getD 2 0
    antiair_growth := attrs_growth.getD 3 0
    aviation_growth := attrs_growth.getD 4 0
    reload_growth := attrs_growth.getD 5 0
    armor_growth := attrs_growth.getD 6 0
    hit_growth := attrs_growth.getD 7 0
    evasion_growth := attrs_growth.getD 8 0
    antisub_growth := attrs_growth.getD 11 0
    equipment_proficiency := data.equipment_proficiency.getD []
    base_list := data.base_list.getD []
    preload_count := data.preload_count.getD [] }

/-- Construction of one `Weapon` entity (`parse_weapons`, lines
323-340); `names` is the already-built `self.weapon_names` map and the
name lookup is `self.weapon_names.get(int(weapon_id), '')`. -/
def mkWeapon (id : Int) (data : WeaponRecord)
    (names : List (Int × String)) : Weapon :=
  { id := id
    name := (alFind names id).getD ""
    damage := data.damage.getD 0
    reload_max := data.reload_max.getD 0
    bullet_id := data.bullet_ID.getD 0
    barrage_id := data.barrage_ID.getD 0
    spawn_bound := data.spawn_bound.getD ""
    fire_fx := data.fire_fx.getD ""
    type_ := data.type_.getD 0
    range := data.range.getD 0
    angle := data.angle.getD 0
    min_range := data.min_range.getD 0
    aim_type := data.aim_type.getD 0 }

/-- The ship's twelve base stats in the fixed source order (indices 0-11
of `attrs`). -/
def shipStats (s : Ship) : List Int :=
  [s.hp, s.firepower, s.torpedo, s.antiair, s.aviation, s.reload,
   s.armor, s.hit, s.evasion, s.speed, s.luck, s.antisub]

/-- The growth fields the `Ship` model declares, in source declaration
order; there are ten of them (source indices 0-8 and 11 of
`attrs_growth`). -/
def shipGrowths (s : Ship) : List Int :=
  [s.hp_growth, s.firepower_growth, s.torpedo_growth, s.antiair_growth,
   s.aviation_growth, s.reload_growth, s.armor_growth, s.hit_growth,
   s.evasion_growth, s.antisub_growth]

/-- The `attrs_growth` source index that position `i` of `shipGrowths`
was read from: 0-8 map to themselves, position 9 (`antisub_growth`) was
read from source index 11. -/
def growthSrcIdx (i : Fin 10) : Nat :=
  if i.val = 9 then 11 else i.val

/-- Keys of an association list, in order. -/
def alKeys {K V : Type} (m : List (K × V)) : List K :=
  m.map Prod.fst

/-- Python `d[k] = v` on a dict embedded as an association list:
replace in place when the key is present, append otherwise. -/
def alInsert {K V : Type} [DecidableEq K] (m : List (K × V)) (k : K) (v : V) :
    List (K × V) :=
  match m with
  | [] => [(k, v)]
  | (a, b) :: t => if a = k then (k, v) :: t else (a, b) :: alInsert t k v

/-- Perform a sequence of `d[k] = v` updates, left to right. -/
def applyUpd {K V : Type} [DecidableEq K] (m : List (K × V))
    (l : List (K × V)) : List (K × V) :=
  l.foldl (fun acc p => alInsert acc p.1 p.2) m

/-- Decimal digits of a Python `int(...)`-parsable digit string. -/
def digitsVal (l : List Char) : Int :=
  l.foldl (fun acc c => acc * 10 + ((c.toNat - 48 : Nat) : Int)) 0

/-- Model of Python `int(key)` on the string keys of the source tables:
an optional sign followed by decimal digits parses, anything else raises
(modelled as `none`; the caller catches and skips the record). -/
def parseIntKey (s : String) : Option Int :=
  match s.data with
  | [] => none
  | '-' :: rest =>
    if rest ≠ [] ∧ rest.all Char.isDigit then some (-(digitsVal rest)) else none
  | l => if l.all Char.isDigit then some (digitsVal l) else none

/-- The raw JSON tables one pipeline run consumes, each a decoded JSON
object in key order. -/
structure Input where
  equip_data_statistics : List (String × EquipStatsRecord) := []
  equip_data_template : List (String × EquipTemplateRecord) := []
  ship_data_statistics : List (String × ShipStatsRecord) := []
  weapon_name : List (String × String) := []
  weapon_property : List (String × WeaponRecord) := []
  bullet_template : List (String × WeaponRecord) := []

/-- The parser object's collections (`self.equipment`, `self.ships`,
`self.weapons`, `self.weapon_names`), each a dict keyed by integer
ID. -/
@[ext]
structure State where
  equipment : List (Int × Equipment) := []
  ships : List (Int × Ship) := []
  weapons : List (Int × Weapon) := []
  weapon_names : List (Int × String) := []
deriving DecidableEq

/-- The parser's state right after `__init__`: all collections empty. -/
def initState : State := {}

/-- `self.weapon_names = {int(k): v for k, v in weapon_names.items() if
k.isdigit()}` — built with dict semantics (last duplicate wins). -/
def weaponNamesOf (inp : Input) : List (Int × String) :=
  applyUpd []
    (inp.weapon_name.filterMap fun kv =>
      if kv.1.data ≠ [] ∧ kv.1.data.all Char.isDigit then
        some (digitsVal kv.1.data, kv.2)
      else none)

/-- The weapon table actually used: `weapon_property.json` if non-empty,
else the `bullet_template.json` fallback (lines 318-321). -/
def weaponDataOf (inp : Input) : List (String × WeaponRecord) :=
  if inp.weapon_property ≠ [] then inp.weapon_property else inp.bullet_template

/-- The `(id, Weapon)` updates `parse_weapons` performs: records whose
key fails `int(...)` are skipped (the per-record `except` clause). -/
def weaponRecords (inp : Input) : List (Int × Weapon) :=
  (weaponDataOf inp).filterMap fun kv =>
    (parseIntKey kv.1).map fun id => (id, mkWeapon id kv.2 (weaponNamesOf inp))

/-- The `(id, Equipment)` updates `parse_equipment` performs; the
template record is looked up by the same string key. -/
def equipRecords (inp : Input) : List (Int × Equipment) :=
  inp.equip_data_statistics.filterMap fun kv =>
    (parseIntKey kv.1).map fun id =>
      (id, mkEquipment id kv.2 (alFind inp.equip_data_template kv.1))

/-- The `(id, Ship)` updates `parse_ships` performs. -/
def shipRecords (inp : Input) : List (Int × Ship) :=
  inp.ship_data_statistics.filterMap fun kv =>
    (parseIntKey kv.1).map fun id => (id, mkShip id kv.2)

/-- `parse_weapons` as a state transformer: replaces `weapon_names`
wholesale and merges the parsed weapons into `self.weapons`. -/
def parse_weapons (inp : Input) (s : State) : State :=
  { s with
    weapon_names := weaponNamesOf inp
    weapons := applyUpd s.weapons (weaponRecords inp) }

/-- `parse_equipment` as a state transformer. -/
def parse_equipment (inp : Input) (s : State) : State :=
  { s with equipment := applyUpd s.equipment (equipRecords inp) }

/-- `parse_ships` as a state transformer. -/
def parse_ships (inp : Input) (s : State) : State :=
  { s with ships := applyUpd s.ships (shipRecords inp) }

/-- The parsing phase of `run()` (lines 562-564): weapons, then
equipment, then ships. -/
def parseAll (s : State) (inp : Input) : State :=
  parse_ships inp (parse_equipment inp (parse_weapons inp s))

/-- Stable insertion into a sorted list (used to model Python's stable
`sorted`): `a` goes before the first element it is `le`-related to. -/
def insertLe {α : Type} (le : α → α → Bool) (a : α) : List α → List α
  | [] => [a]
  | b :: t => if le a b then a :: b :: t else b :: insertLe le a t

/-- Stable sort by a boolean `≤` test, matching Python `sorted(xs,
key=...)`: elements with equal keys keep their original relative
order. -/
def sortLe {α : Type} (le : α → α → Bool) : List α → List α
  | [] => []
  | a :: t => insertLe le a (sortLe le t)

/-- Lexicographic `≤` on an `Int` triple, the composite sort keys of
`export_to_csv`. -/
def leKey3 (a b : Int × Int × Int) : Bool :=
  decide (a.1 < b.1 ∨ (a.1 = b.1 ∧
    (a.2.1 < b.2.1 ∨ (a.2.1 = b.2.1 ∧ a.2.2 ≤ b.2.2))))

/-- Minimal CSV field quoting as Python's `csv` module applies it: quote
a field containing a separator, quote char or line break, doubling inner
quotes. -/
def csvQuoteField (s : String) : String :=
  if s.data.any (fun c => c = ',' ∨ c = '"' ∨ c = '\r' ∨ c = '\n') then
    "\"" ++ s.replace "\"" "\"\"" ++ "\""
  else s

/-- One CSV line from its cells. -/
def csvLine (cells : List String) : String :=
  String.intercalate "," (cells.map csvQuoteField)

/-- The cells of one equipment row, in `fieldnames` order
(`export_to_csv`, lines 435-452). -/
def equipmentRow (e : Equipment) : List String :=
  [toString e.id,
   sanitize_csv_field (CsvValue.str e.name),
   e.type_name,
   lookupTbl RARITIES e.rarity,
   lookupTbl NATIONS e.nationality,
   toString e.tech,
   String.intercalate "," (e.weapon_ids.map toString),
   sanitize_csv_field (CsvValue.str e.description),
   sanitize_csv_field (CsvValue.str e.speciality)]

/-- The cells of one ship row (`export_to_csv`, lines 459-486). -/
def shipRow (s : Ship) : List String :=
  [toString s.id,
   sanitize_csv_field (CsvValue.str s.name),
   sanitize_csv_field (CsvValue.str s.english_name),
   s.type_name,
   lookupTbl RARITIES s.rarity,
   lookupTbl NATIONS s.nationality,
   toString s.hp, toString s.firepower, toString s.torpedo,
   toString s.antiair, toString s.aviation, toString s.reload,
   toString s.armor, toString s.hit, toString s.evasion,
   toString s.speed, toString s.luck, toString s.antisub]

/-- The cells of one weapon row (`export_to_csv`, lines 493-507); the
name cell is `sanitize_csv_field(weapon.name or f"Weapon_{weapon.id}")`. -/
def weaponRow (w : Weapon) : List String :=
  [toString w.id,
   sanitize_csv_field (CsvValue.str
     (if w.name = "" then "Weapon_" ++ toString w.id else w.name)),
   toString w.damage,
   toString w.reload_max,
   toString w.range,
   toString w.angle,
   toString w.type_]

/-- The text lines of `equipment.csv`.  The file is opened
unconditionally, but `if self.equipment:` guards the header and the
rows, so an empty collection yields a zero-content file.  Rows are the
dict's values sorted by `(type, rarity, tech)`. -/
def equipmentCsvLines (equipment : List (Int × Equipment)) : List String :=
  match equipment with
  | [] => []
  | _ =>
    csvLine ["id", "name", "type_name", "rarity", "nationality", "tech",
             "weapon_ids", "description", "speciality"] ::
    (sortLe (fun a b => leKey3 (a.type_, a.rarity, a.tech) (b.type_, b.rarity, b.tech))
        (equipment.map Prod.snd)).map (fun e => csvLine (equipmentRow e))

/-- The text lines of `ships.csv`; rows sorted by `(type, rarity, id)`. -/
def shipsCsvLines (ships : List (Int × Ship)) : List String :=
  match ships with
  | [] => []
  | _ =>
    csvLine ["id", "name", "english_name", "type_name", "rarity", "nationality",
             "hp", "firepower", "torpedo", "antiair", "aviation", "reload",
             "armor", "hit", "evasion", "speed", "luck", "antisub"] ::
    (sortLe (fun a b => leKey3 (a.type_, a.rarity, a.id) (b.type_, b.rarity, b.id))
        (ships.map Prod.snd)).map (fun s => csvLine (shipRow s))

/-- The text lines of `weapons.csv`; rows sorted by `id`. -/
def weaponsCsvLines (weapons : List (Int × Weapon)) : List String :=
  match weapons with
  | [] => []
  | _ =>
    csvLine ["id", "name", "damage", "reload_max", "range", "angle", "type"] ::
    (sortLe (fun a b => decide (a.id ≤ b.id)) (weapons.map Prod.snd)).map
      (fun w => csvLine (weaponRow w))

/-- The three CSV files `export_to_csv` writes, as (filename, lines). -/
def csvFiles (s : State) : List (String × List String) :=
  [("equipment.csv", equipmentCsvLines s.equipment),
   ("ships.csv", shipsCsvLines s.ships),
   ("weapons.csv", weaponsCsvLines s.weapons)]

/-- `export_to_csv` (lines 422-508) with the outcome of
`os.makedirs` made explicit: on failure the exception is caught, the
error is printed and the method returns having written nothing; on
success the three files are written.  `Except.error` would model an
uncaught exception; this method never produces one. -/
def export_to_csv (mkdirOk : Bool) (s : State) :
    Except String (List (String × List String)) :=
  if mkdirOk then Except.ok (csvFiles s) else Except.ok []

/-- `defaultdict(list)` grouping: append to an existing group, else
append a new group at the end (dict insertion order). -/
def groupPush {α : Type} (groups : List (String × List α)) (k : String)
    (a : α) : List (String × List α) :=
  match groups with
  | [] => [(k, [a])]
  | (k', l) :: t =>
    if k' = k then (k', l ++ [a]) :: t else (k', l) :: groupPush t k a

/-- `equipment_by_type.json`: equipment grouped by `type_name`, each
record enriched with resolved rarity and nationality display names
(`export_to_json`, lines 515-524). -/
def equip_by_type (s : State) : List (String × List (Equipment × String × String)) :=
  s.equipment.foldl
    (fun gs p =>
      groupPush gs p.2.type_name
        (p.2, lookupTbl RARITIES p.2.rarity, lookupTbl NATIONS p.2.nationality))
    []

/-- `ships_by_type.json` (lines 528-537). -/
def ships_by_type (s : State) : List (String × List (Ship × String × String)) :=
  s.ships.foldl
    (fun gs p =>
      groupPush gs p.2.type_name
        (p.2, lookupTbl RARITIES p.2.rarity, lookupTbl NATIONS p.2.nationality))
    []

/-- `summary.json` (lines 541-549): counts, the observed category name
lists, and the constant nationality/rarity name lists. -/
structure Summary where
  total_equipment : Nat
  total_ships : Nat
  total_weapons : Nat
  equipment_types : List String
  ship_types : List String
  nationalities : List String
  rarities : List String
deriving DecidableEq

/-- The summary document contents. -/
def summaryOf (s : State) : Summary :=
  { total_equipment := s.equipment.length
    total_ships := s.ships.length
    total_weapons := s.weapons.length
    equipment_types := alKeys (equip_by_type s)
    ship_types := alKeys (ships_by_type s)
    nationalities := NATIONS.map Prod.snd
    rarities := RARITIES.map Prod.snd }

/-- The structured data `export_to_json` serializes; `json.dump` is a
deterministic function of these values, so equal values mean
byte-identical JSON files. -/
def jsonExports (s : State) :
    List (String × List (Equipment × String × String)) ×
    List (String × List (Ship × String × String)) × Summary :=
  (equip_by_type s, ships_by_type s, summaryOf s)

/-- `export_to_json` (lines 510-554): its `os.makedirs(output_dir,
exist_ok=True)` call is NOT wrapped in try/except, so a directory
creation failure propagates as an uncaught exception, modelled as
`Except.error`. -/
def export_to_json (mkdirOk : Bool) (s : State) :
    Except String
      (List (String × List (Equipment × String × String)) ×
       List (String × List (Ship × String × String)) × Summary) :=
  if mkdirOk then Except.ok (jsonExports s) else Except.error "makedirs failed"

/-- `run()` (lines 556-580): parse everything, then export to CSV, then
to JSON; an uncaught exception in either export terminates the run. -/
def runPipeline (mkdirOk : Bool) (inp : Input) :
    Except String
      (List (String × List String) ×
       (List (String × List (Equipment × String × String)) ×
        List (String × List (Ship × String × String)) × Summary)) := do
  let s := parseAll initState inp
  let csv ← export_to_csv mkdirOk s
  let js ← export_to_json mkdirOk s
  pure (csv, js)

/-- The normalized `progress.json` state that `update_progress`
(`scripts/utils.py`, lines 22-61) operates on after its key-defaulting
preamble.  The four completeness buckets keep their JSON key names
"basic", "completed", "partial", "failed"; the third is spelled
`bucketPartial` here because its JSON name is a Lean keyword. -/
structure Progress where
  bucketBasic : List String := []
  bucketCompleted : List String := []
  bucketPartial : List String := []
  bucketFailed : List String := []
  retry_queue : List String := []
  last_updated : String := ""
deriving DecidableEq

/-- Embedding of `update_progress`: `list.remove(item_name)` removes the
FIRST occurrence only (Lean `List.erase`; the `if item_name in
current_list` guard matches `erase`'s no-op on absence), then the item
is appended to the bucket named by `status` when that is one of the four
bucket names.  `datetime.now().isoformat()` is the external input
`now`. -/
def update_progress (item_name status now : String) (p : Progress) : Progress :=
  let p' : Progress :=
    { p with
      bucketBasic := p.bucketBasic.erase item_name
      bucketCompleted := p.bucketCompleted.erase item_name
      bucketPartial := p.bucketPartial.erase item_name
      bucketFailed := p.bucketFailed.erase item_name }
  let p'' : Progress :=
    if status = "basic" then
      { p' with bucketBasic := p'.bucketBasic ++ [item_name] }
    else if status = "completed" then
      { p' with bucketCompleted := p'.bucketCompleted ++ [item_name] }
    else if status = "partial" then
      { p' with bucketPartial := p'.bucketPartial ++ [item_name] }
    else if status = "failed" then
      { p' with bucketFailed := p'.bucketFailed ++ [item_name] }
    else p'
  { p'' with last_updated := now }

/-- How many of the four completeness buckets contain `x`. -/
def bucketsContainingCount (p : Progress) (x : String) : Nat :=
  (if x ∈ p.bucketBasic then 1 else 0) +
  (if x ∈ p.bucketCompleted then 1 else 0) +
  (if x ∈ p.bucketPartial then 1 else 0) +
  (if x ∈ p.bucketFailed then 1 else 0)

theorem alKeys_alInsert {K V : Type} [DecidableEq K] (m : List (K × V))
    (k : K) (v : V) :
    alKeys (alInsert m k v) = if k ∈ alKeys m then alKeys m else alKeys m ++ [k] := by
  induction m with
  | nil => simp [alInsert, alKeys]
  | cons p t ih =>
    obtain ⟨a, b⟩ := p
    by_cases h : a = k
    · subst h
      simp [alInsert, alKeys]
    · have hka : ¬ k = a := fun hh => h hh.symm
      simp only [alInsert, if_neg h, alKeys, List.map_cons] at ih ⊢
      rw [ih]
      simp only [List.mem_cons, hka, false_or]
      by_cases h2 : k ∈ List.map Prod.fst t <;> simp [h2]

theorem nodup_alKeys_alInsert {K V : Type} [DecidableEq K]
    {m : List (K × V)} {k : K} {v : V} (h : (alKeys m).Nodup) :
    (alKeys (alInsert m k v)).Nodup := by
  rw [alKeys_alInsert]
  split_ifs with hm
  · exact h
  · rw [List.nodup_append]
    exact ⟨h, List.nodup_singleton _, by simpa using hm⟩

theorem alFind_alInsert {K V : Type} [DecidableEq K] (m : List (K × V))
    (k q : K) (v : V) :
    alFind (alInsert m k v) q = if k = q then some v else alFind m q := by
  induction m with
  | nil => simp [alInsert, alFind]
  | cons p t ih =>
    obtain ⟨x, y⟩ := p
    by_cases hxk : x = k
    · subst hxk
      simp only [alInsert, if_pos rfl, alFind]
      by_cases hxq : x = q <;> simp [hxq]
    · simp only [alInsert, if_neg hxk, alFind, ih]
      by_cases hxq : x = q
      · subst hxq
        simp only [if_true]
        exact (if_neg (fun hh : k = x => hxk hh.symm)).symm
      · simp [hxq]

theorem alFind_eq_none {K V : Type} [DecidableEq K] {m : List (K × V)}
    {q : K} (h : q ∉ alKeys m) : alFind m q = none := by
  induction m with
  | nil => rfl
  | cons p t ih =>
    obtain ⟨x, y⟩ := p
    simp only [alKeys, List.map_cons, List.mem_cons, not_or] at h
    have : x ≠ q := fun hh => h.1 hh.symm
    simp only [alFind, if_neg this]
    exact ih h.2

theorem applyUpd_cons {K V : Type} [DecidableEq K] (m : List (K × V))
    (k : K) (v : V) (t : List (K × V)) :
    applyUpd m ((k, v) :: t) = applyUpd (alInsert m k v) t := rfl

theorem mem_alKeys_applyUpd_left {K V : Type} [DecidableEq K]
    {m l : List (K × V)} {a : K} (h : a ∈ alKeys m) :
    a ∈ alKeys (applyUpd m l) := by
  induction l generalizing m with
  | nil => exact h
  | cons p t ih =>
    obtain ⟨k, v⟩ := p
    rw [applyUpd_cons]
    apply ih
    rw [alKeys_alInsert]
    split_ifs <;> simp [h]

theorem mem_alKeys_applyUpd_right {K V : Type} [DecidableEq K]
    {m l : List (K × V)} {a : K} (h : a ∈ alKeys l) :
    a ∈ alKeys (applyUpd m l) := by
  induction l generalizing m with
  | nil => simp [alKeys] at h
  | cons p t ih =>
    obtain ⟨k, v⟩ := p
    rw [applyUpd_cons]
    rcases (by simpa [alKeys] using h : a = k ∨ a ∈ alKeys t) with h1 | h2
    · subst h1
      apply mem_alKeys_applyUpd_left
      rw [alKeys_alInsert]
      split_ifs with hm
      · exact hm
      · simp
    · exact ih h2

theorem alKeys_applyUpd_of_subset {K V : Type} [DecidableEq K]
    {m l : List (K × V)} (h : ∀ a ∈ alKeys l, a ∈ alKeys m) :
    alKeys (applyUpd m l) = alKeys m := by
  induction l generalizing m with
  | nil => rfl
  | cons p t ih =>
    obtain ⟨k, v⟩ := p
    rw [applyUpd_cons]
    have hk : k ∈ alKeys m := h k (by simp [alKeys])
    have hins : alKeys (alInsert m k v) = alKeys m := by
      rw [alKeys_alInsert, if_pos hk]
    have h2 : ∀ a ∈ alKeys t, a ∈ alKeys (alInsert m k v) := by
      intro a ha
      rw [hins]
      exact h a (by simp [alKeys] at ha ⊢; exact Or.inr ha)
    rw [ih h2, hins]

theorem nodup_alKeys_applyUpd {K V : Type} [DecidableEq K]
    {m : List (K × V)} (l : List (K × V)) (h : (alKeys m).Nodup) :
    (alKeys (applyUpd m l)).Nodup := by
  induction l generalizing m with
  | nil => exact h
  | cons p t ih =>
    obtain ⟨k, v⟩ := p
    rw [applyUpd_cons]
    exact ih (nodup_alKeys_alInsert h)

/-- The value the last assignment in `l` gives to key `q`, if any. -/
def lastAssign {K V : Type} [DecidableEq K] (l : List (K × V)) (q : K) :
    Option V :=
  match l with
  | [] => none
  | (k, v) :: t =>
    match lastAssign t q with
    | some w => some w
    | none => if k = q then some v else none

theorem alFind_applyUpd {K V : Type} [DecidableEq K] (m l : List (K × V))
    (q : K) :
    alFind (applyUpd m l) q =
      match lastAssign l q with
      | some w => some w
      | none => alFind m q := by
  induction l generalizing m with
  | nil => simp [applyUpd, lastAssign]
  | cons p t ih =>
    obtain ⟨k, v⟩ := p
    rw [applyUpd_cons, ih]
    simp only [lastAssign]
    cases hL : lastAssign t q with
    | some w => simp
    | none =>
      simp only [alFind_alInsert]
      by_cases hkq : k = q <;> simp [hkq]

theorem alExt {K V : Type} [DecidableEq K] :
    ∀ (m1 m2 : List (K × V)), (alKeys m1).Nodup → (alKeys m2).Nodup →
      alKeys m1 = alKeys m2 → (∀ q, alFind m1 q = alFind m2 q) → m1 = m2 := by
  intro m1
  induction m1 with
  | nil =>
    intro m2 _ _ hk _
    cases m2 with
    | nil => rfl
    | cons p t => simp [alKeys] at hk
  | cons p t ih =>
    intro m2 h1 h2 hk hf
    obtain ⟨k, v⟩ := p
    cases m2 with
    | nil => simp [alKeys] at hk
    | cons p2 t2 =>
      obtain ⟨k2, v2⟩ := p2
      simp only [alKeys, List.map_cons, List.cons.injEq] at hk
      obtain ⟨hkk, hkt⟩ := hk
      subst hkk
      have hv : v = v2 := by
        have := hf k
        simpa [alFind] using this
      subst hv
      simp only [alKeys, List.map_cons, List.nodup_cons] at h1 h2
      have htails : t = t2 := by
        apply ih t2 h1.2 h2.2 hkt
        intro q
        by_cases hq : q = k
        · subst hq
          rw [alFind_eq_none h1.1, alFind_eq_none h2.1]
        · have hkq : k ≠ q := fun hh => hq hh.symm
          have := hf q
          simpa [alFind, if_neg hkq] using this
      rw [htails]

theorem applyUpd_idem {K V : Type} [DecidableEq K] (m l : List (K × V))
    (h : (alKeys m).Nodup) :
    applyUpd (applyUpd m l) l = applyUpd m l := by
  have hM : (alKeys (applyUpd m l)).Nodup := nodup_alKeys_applyUpd l h
  apply alExt _ _ (nodup_alKeys_applyUpd l hM) hM
  · exact alKeys_applyUpd_of_subset fun a ha => mem_alKeys_applyUpd_right ha
  · intro q
    rw [alFind_applyUpd]
    cases hL : lastAssign l q with
    | some w => rw [alFind_applyUpd, hL]
    | none => rfl

theorem parseAll_idem (inp : Input) :
    parseAll (parseAll initState inp) inp = parseAll initState inp := by
  simp only [parseAll, parse_ships, parse_equipment, parse_weapons, initState]
  ext1 <;> simp <;>
    exact applyUpd_idem _ _ (by simp [alKeys])

/-- C9: running the parse phase a second time over the same input (the
collections persisting, as `self.equipment` etc. do across repeated
`run()` calls) leaves every collection unchanged, so the CSV files and
the JSON documents produced by the second export are identical to the
first run's — the pipeline output is a deterministic function of the
input tables. -/
theorem pipeline_outputs_idempotent (inp : Input) :
    csvFiles (parseAll (parseAll initState inp) inp) =
      csvFiles (parseAll initState inp) ∧
    jsonExports (parseAll (parseAll initState inp) inp) =
      jsonExports (parseAll initState inp) :=
  ⟨congrArg csvFiles (parseAll_idem inp), congrArg jsonExports (parseAll_idem inp)⟩

/-- Does the string start with one of the spreadsheet-formula
characters `=`, `+`, `-`, `@`, tab, carriage return? -/
def startsWithFormulaChar (s : String) : Bool :=
  match s.data with
  | [] => false
  | c :: _ => c = '=' || c = '+' || c = '-' || c = '@' || c = '\t' || c = '\r'

/-- The entity fields that correspond, column by column, to the cells
of one equipment CSV row (`fieldnames`, lines 435-436): id, name,
type_name, rarity, nationality, tech, weapon_ids, description,
speciality. -/
def equipmentFields (e : Equipment) : List CsvValue :=
  [CsvValue.int e.id, CsvValue.str e.name, CsvValue.str e.type_name,
   CsvValue.int e.rarity, CsvValue.int e.nationality, CsvValue.int e.tech,
   CsvValue.intList e.weapon_ids, CsvValue.str e.description,
   CsvValue.str e.speciality]

/-- A concrete equipment entity: id 1, name "Gun", type 1, rarity 2. -/
def equipGunC1 : Equipment :=
  { id := 1, name := "Gun", type_ := 1, type_name := "DD Gun", rarity := 2 }

/-- C1 counterexample: the cells of an equipment CSV row are NOT all
the sanitization of the corresponding entity field.  For the equipment
with rarity 2 the written rarity cell is the display name "Rare" while
the sanitization of the rarity field is "2" (and the nationality and
weapon_ids cells differ likewise). -/
theorem equipment_row_cells_not_sanitized_fields :
    equipmentRow equipGunC1 ≠
      List.map sanitize_csv_field (equipmentFields equipGunC1) := by
  decide

/-- C1 amended: sanitization (quote-prefix exactly when the string
starts with `=`, `+`, `-`, `@`, tab or carriage return; every other
string unchanged; an int emitted as its decimal text) is applied to the
free-form string cells only — equipment name, description and
speciality, ship name and english_name, and the weapon name cell — while
the rarity and nationality cells hold display names looked up from the
numeric fields, not sanitized field values. -/
theorem csv_sanitization_applied (s : String) (n : Int) (e : Equipment)
    (sh : Ship) (w : Weapon) :
    ((startsWithFormulaChar s = true →
        sanitize_csv_field (CsvValue.str s) = "'" ++ s) ∧
     (startsWithFormulaChar s = false →
        sanitize_csv_field (CsvValue.str s) = s) ∧
     sanitize_csv_field (CsvValue.int n) = toString n) ∧
    ((equipmentRow e).get? 1 = some (sanitize_csv_field (CsvValue.str e.name)) ∧
     (equipmentRow e).get? 7 =
       some (sanitize_csv_field (CsvValue.str e.description)) ∧
     (equipmentRow e).get? 8 =
       some (sanitize_csv_field (CsvValue.str e.speciality)) ∧
     (equipmentRow e).get? 3 = some (lookupTbl RARITIES e.rarity) ∧
     (equipmentRow e).get? 4 = some (lookupTbl NATIONS e.nationality) ∧
     (shipRow sh).get? 1 = some (sanitize_csv_field (CsvValue.str sh.name)) ∧
     (shipRow sh).get? 2 =
       some (sanitize_csv_field (CsvValue.str sh.english_name)) ∧
     (weaponRow w).get? 1 =
       some (sanitize_csv_field (CsvValue.str
         (if w.name = "" then "Weapon_" ++ toString w.id else w.name)))) := by
  refine ⟨⟨fun h => ?_, fun h => ?_, rfl⟩, rfl, rfl, rfl, rfl, rfl, rfl, rfl, rfl⟩
  · cases hs : s.data with
    | nil => simp [startsWithFormulaChar, hs] at h
    | cons c rest =>
      simp only [startsWithFormulaChar, hs, Bool.or_eq_true, decide_eq_true_eq] at h
      simp only [sanitize_csv_field, hs]
      rw [if_pos]
      tauto
  · cases hs : s.data with
    | nil => simp [sanitize_csv_field, hs]
    | cons c rest =>
      simp only [startsWithFormulaChar, hs, Bool.or_eq_false_iff,
        decide_eq_false_iff_not] at h
      simp only [sanitize_csv_field, hs]
      rw [if_neg]
      tauto

/-- C1 amended, witness at a formula-leading string. -/
theorem csv_sanitization_applied_witness :
    sanitize_csv_field (CsvValue.str "=SUM(A1)") = "'" ++ "=SUM(A1)" :=
  (csv_sanitization_applied "=SUM(A1)" 0 equipGunC1 { id := 0, name := "" }
    { id := 0 }).1.1 (by decide)

/-- C2 counterexample: with an empty equipment collection the equipment
CSV gets NO lines at all — `if self.equipment:` guards the header too,
so the file does not consist of exactly the header row. -/
theorem empty_equipment_csv_has_no_header :
    equipmentCsvLines [] = [] ∧
    equipmentCsvLines [] ≠
      [csvLine ["id", "name", "type_name", "rarity", "nationality", "tech",
                "weapon_ids", "description", "speciality"]] :=
  ⟨rfl, by simp [equipmentCsvLines]⟩

/-- C2 amended: an export run with an empty equipment collection
creates the equipment CSV file with no content at all (neither header
nor data rows) and does not raise — `export_to_csv` returns normally
with the other two files unaffected. -/
theorem empty_equipment_csv_empty_file (s : State) (h : s.equipment = []) :
    export_to_csv true s =
      Except.ok [("equipment.csv", []),
                 ("ships.csv", shipsCsvLines s.ships),
                 ("weapons.csv", weaponsCsvLines s.weapons)] := by
  simp [export_to_csv, csvFiles, h, equipmentCsvLines]

/-- C2 amended, witness at the freshly initialized state. -/
theorem empty_equipment_csv_empty_file_witness :
    export_to_csv true initState =
      Except.ok [("equipment.csv", []),
                 ("ships.csv", shipsCsvLines initState.ships),
                 ("weapons.csv", weaponsCsvLines initState.weapons)] :=
  empty_equipment_csv_empty_file initState rfl

/-- C3 counterexample: a numeric code field absent from the raw record
does not always default to 0 — an equipment record without a `rarity`
key yields rarity 1, not 0 (`data.get('rarity', 1)` at line 217). -/
theorem equipment_missing_rarity_defaults_to_one :
    ({} : EquipStatsRecord).rarity = none ∧
    (mkEquipment 1 {} none).rarity = 1 ∧
    ¬ (mkEquipment 1 {} none).rarity = 0 :=
  ⟨rfl, rfl, by decide⟩

/-- C3 amended: construction is total (these are total Lean functions,
as the Python guards every read with a default), every sequence field
absent from the source defaults to empty, and every numeric code field
absent from the source defaults to 0 — EXCEPT equipment rarity, which
defaults to 1, and ship rarity, star and armor_type, which default
to 1. -/
theorem construction_defaults (i j : Int) (r : EquipStatsRecord)
    (t : Option EquipTemplateRecord) (sr : ShipStatsRecord) :
    (r.type_ = none → (mkEquipment i r t).type_ = 0) ∧
    (r.nationality = none → (mkEquipment i r t).nationality = 0) ∧
    (r.tech = none → (mkEquipment i r t).tech = 0) ∧
    (r.ammo = none → (mkEquipment i r t).ammo_type = 0) ∧
    (r.value_2 = none → (mkEquipment i r t).value_2 = 0) ∧
    (r.value_3 = none → (mkEquipment i r t).value_3 = 0) ∧
    (r.rarity = none → (mkEquipment i r t).rarity = 1) ∧
    (r.weapon_id = none → (mkEquipment i r t).weapon_ids = []) ∧
    (r.part_main = none → (mkEquipment i r t).part_main = []) ∧
    (r.part_sub = none → (mkEquipment i r t).part_sub = []) ∧
    (r.property_rate = none → (mkEquipment i r t).property_rate = []) ∧
    (r.equip_parameters = none → (mkEquipment i r t).equip_parameters = []) ∧
    (t = none →
      (mkEquipment i r t).damage = [] ∧ (mkEquipment i r t).reload = [] ∧
      (mkEquipment i r t).armor_modifiers = []) ∧
    (sr.type_ = none → (mkShip j sr).type_ = 0) ∧
    (sr.nationality = none → (mkShip j sr).nationality = 0) ∧
    (sr.rarity = none → (mkShip j sr).rarity = 1) ∧
    (sr.star = none → (mkShip j sr).star = 1) ∧
    (sr.armor_type = none → (mkShip j sr).armor_type = 1) ∧
    (sr.attrs = none → shipStats (mkShip j sr) = List.replicate 12 0) ∧
    (sr.attrs_growth = none → shipGrowths (mkShip j sr) = List.replicate 10 0) ∧
    (sr.equipment_proficiency = none →
      (mkShip j sr).equipment_proficiency = []) ∧
    (sr.base_list = none → (mkShip j sr).base_list = []) ∧
    (sr.preload_count = none → (mkShip j sr).preload_count = []) := by
  refine ⟨fun h => ?_, fun h => ?_, fun h => ?_, fun h => ?_, fun h => ?_,
          fun h => ?_, fun h => ?_, fun h => ?_, fun h => ?_, fun h => ?_,
          fun h => ?_, fun h => ?_, fun h => ⟨?_, ?_, ?_⟩,
          fun h => ?_, fun h => ?_, fun h => ?_, fun h => ?_, fun h => ?_,
          fun h => ?_, fun h => ?_, fun h => ?_, fun h => ?_, fun h => ?_⟩ <;>
    first
      | ((cases t <;> simp_all [mkEquipment]); done)
      | (simp_all [mkShip]; done)
      | simp_all [mkShip, shipStats, shipGrowths]

/-- C3 amended, witness at fully-absent records. -/
theorem construction_defaults_witness :
    (mkEquipment 1 {} none).type_ = 0 ∧
    (mkEquipment 1 {} none).rarity = 1 ∧
    (mkEquipment 1 {} none).weapon_ids = [] ∧
    (mkShip 2 {}).star = 1 ∧
    shipStats (mkShip 2 {}) = List.replicate 12 0 :=
  ⟨(construction_defaults 1 2 {} none {}).1 rfl,
   (construction_defaults 1 2 {} none {}).2.2.2.2.2.2.1 rfl,
   (construction_defaults 1 2 {} none {}).2.2.2.2.2.2.2.1 rfl,
   (construction_defaults 1 2 {} none {}).2.2.2.2.2.2.2.2.2.2.2.2.2.2.2.2.1 rfl,
   (construction_defaults 1 2 {} none {}).2.2.2.2.2.2.2.2.2.2.2.2.2.2.2.2.2.2.1 rfl⟩

/-- A ship record whose growth vector marks positions 9 (speed, 77) and
10 (luck, 88). -/
def shipRecGrowthMarks : ShipStatsRecord :=
  { attrs_growth := some [0, 0, 0, 0, 0, 0, 0, 0, 0, 77, 88, 0] }

/-- C5 counterexample: the model does NOT retain a growth value for each
of the 12 stat positions.  Parsing a record whose growth vector holds 77
at position 9 (speed) and 88 at position 10 (luck) yields a ship none of
whose growth fields holds 77 or 88 — the `Ship` model has no fields for
those two positions, and its growth list has 10 entries, not 12. -/
theorem growth_positions_speed_luck_dropped :
    (77 : Int) ∉ shipGrowths (mkShip 1 shipRecGrowthMarks) ∧
    (88 : Int) ∉ shipGrowths (mkShip 1 shipRecGrowthMarks) ∧
    (shipGrowths (mkShip 1 shipRecGrowthMarks)).length ≠ 12 := by
  decide

/-- C5 amended: the model retains a growth-rate value for 10 of the 12
stat positions — all but speed (source index 9) and luck (source index
10) — and each retained growth field is read from the `attrs_growth`
source index of the stat it is parallel to (0-8 and 11, with the
out-of-range-defaults-to-0 guard). -/
theorem growth_vector_ten_positions (j : Int) (sr : ShipStatsRecord) :
    (mkShip j sr).hp_growth =
      (sr.attrs_growth.getD (List.replicate 12 0)).getD 0 0 ∧
    (mkShip j sr).firepower_growth =
      (sr.attrs_growth.getD (List.replicate 12 0)).getD 1 0 ∧
    (mkShip j sr).torpedo_growth =
      (sr.attrs_growth.getD (List.replicate 12 0)).getD 2 0 ∧
    (mkShip j sr).antiair_growth =
      (sr.attrs_growth.getD (List.replicate 12 0)).getD 3 0 ∧
    (mkShip j sr).aviation_growth =
      (sr.attrs_growth.getD (List.replicate 12 0)).getD 4 0 ∧
    (mkShip j sr).reload_growth =
      (sr.attrs_growth.getD (List.replicate 12 0)).getD 5 0 ∧
    (mkShip j sr).armor_growth =
      (sr.attrs_growth.getD (List.replicate 12 0)).getD 6 0 ∧
    (mkShip j sr).hit_growth =
      (sr.attrs_growth.getD (List.replicate 12 0)).getD 7 0 ∧
    (mkShip j sr).evasion_growth =
      (sr.attrs_growth.getD (List.replicate 12 0)).getD 8 0 ∧
    (mkShip j sr).antisub_growth =
      (sr.attrs_growth.getD (List.replicate 12 0)).getD 11 0 ∧
    (shipGrowths (mkShip j sr)).length = 10 :=
  ⟨rfl, rfl, rfl, rfl, rfl, rfl, rfl, rfl, rfl, rfl, rfl⟩

/-- An equipment statistics record carrying rarity 3. -/
def statsRarityThree : EquipStatsRecord := { rarity := some 3 }

/-- A template record for the same ID carrying rarity 5. -/
def tmplRarityFive : EquipTemplateRecord := { rarity := some 5 }

/-- C6 counterexample: a field present in the secondary (template)
record does NOT necessarily overwrite the entity: with primary rarity 3
and secondary rarity 5 the constructed entity keeps rarity 3 — the
overlay copies only `damage`, `reload` and `armor_modifiers`. -/
theorem template_rarity_not_overlaid :
    tmplRarityFive.rarity = some 5 ∧
    (mkEquipment 1 statsRarityThree (some tmplRarityFive)).rarity = 3 ∧
    (mkEquipment 1 statsRarityThree (some tmplRarityFive)).rarity ≠ 5 := by
  refine ⟨rfl, rfl, by decide⟩

/-- C6 amended: when a secondary (template) record exists for the ID,
exactly the fields `damage`, `reload` and `armor_modifiers` are taken
from it (each defaulting to the empty sequence when that key is absent
from the secondary record, which is also their value derived from the
primary record); every other field of the entity is exactly what the
primary record alone produces. -/
theorem template_overlay_exact (i : Int) (r : EquipStatsRecord)
    (tr : EquipTemplateRecord) :
    mkEquipment i r (some tr) =
      { mkEquipment i r none with
        damage := tr.damage.getD []
        reload := tr.reload.getD []
        armor_modifiers := tr.armor_modifiers.getD [] } := rfl

/-- The `ship_data_statistics` record of end-to-end scenario 2:
`attrs=[5000, 100]`, only 2 of 12 stat values present. -/
def shipRecScenario2 : ShipStatsRecord :=
  { attrs := some [5000, 100], attrs_growth := some [] }

/-- C7: parsing a ship record whose `attrs` or `attrs_growth` list is
shorter than 12 never raises (the embedding is a total function, as the
source guards every positional read with `if len(...) > i`), every base
stat whose source index lies beyond the list's length is 0, every
retained growth field whose source index lies beyond the growth list's
length is 0, and in particular `attrs=[5000, 100]` yields hp 5000,
firepower 100 and zeros for the other ten stats. -/
theorem short_stat_vectors_default_zero (j : Int) (sr : ShipStatsRecord)
    (l g : List Int) (hl : sr.attrs = some l) (hg : sr.attrs_growth = some g)
    (hshort : l.length < 12 ∨ g.length < 12) :
    ((∀ i : Fin 12, l.length ≤ i.val →
        (shipStats (mkShip j sr)).getD i.val 0 = 0) ∧
     (∀ i : Fin 10, g.length ≤ growthSrcIdx i →
        (shipGrowths (mkShip j sr)).getD i.val 0 = 0)) ∧
    shipStats (mkShip 1 shipRecScenario2) =
      [5000, 100, 0, 0, 0, 0, 0, 0, 0, 0, 0, 0] := by
  refine ⟨⟨fun i hi => ?_, fun i hi => ?_⟩, by decide⟩
  · fin_cases i <;>
      simp_all [mkShip, shipStats] <;>
      simp [List.getElem?_eq_none hi]
  · fin_cases i <;>
      simp_all [mkShip, shipGrowths, growthSrcIdx] <;>
      simp [List.getElem?_eq_none hi]

/-- C7, witness: scenario 2's record with `attrs=[5000, 100]` and an
empty growth list, evaluated at stat index 5 (reload) and growth
position 0 (hp growth). -/
theorem short_stat_vectors_default_zero_witness :
    (shipStats (mkShip 1 shipRecScenario2)).getD 5 0 = 0 ∧
    (shipGrowths (mkShip 1 shipRecScenario2)).getD 0 0 = 0 :=
  ⟨(short_stat_vectors_default_zero 1 shipRecScenario2 [5000, 100] []
      rfl rfl (Or.inl (by decide))).1.1 ⟨5, by decide⟩ (by decide),
   (short_stat_vectors_default_zero 1 shipRecScenario2 [5000, 100] []
      rfl rfl (Or.inl (by decide))).1.2 ⟨0, by decide⟩ (by decide)⟩

/-- A progress state in which "x" appears twice in the basic bucket
(nothing stops `progress.json` on disk from containing duplicates). -/
def progressDupX : Progress := { bucketBasic := ["x", "x"] }

/-- C8 counterexample: from a progress state whose basic bucket holds
the item twice, updating the item to "completed" leaves one copy in
basic (Python `list.remove` deletes only the first occurrence) while
appending it to completed — the item then appears in TWO buckets. -/
theorem duplicate_item_breaks_bucket_exclusivity :
    bucketsContainingCount
      (update_progress "x" "completed" "t" progressDupX) "x" = 2 := by
  decide

theorem not_mem_erase_of_count_le_one {l : List String} {x : String}
    (h : l.count x ≤ 1) : x ∉ l.erase x := by
  have h2 := List.count_erase_self x l
  have h3 : (l.erase x).count x = 0 := by omega
  exact List.count_eq_zero.mp h3

/-- C8 amended: for every progress state in which the item occurs at
most once in each bucket (true of every state reachable by updates from
the empty state), the update operation leaves the item in at most one of
the four completeness buckets, whatever the status string. -/
theorem update_progress_bucket_exclusive (p : Progress)
    (item status now : String)
    (h1 : p.bucketBasic.count item ≤ 1)
    (h2 : p.bucketCompleted.count item ≤ 1)
    (h3 : p.bucketPartial.count item ≤ 1)
    (h4 : p.bucketFailed.count item ≤ 1) :
    bucketsContainingCount (update_progress item status now p) item ≤ 1 := by
  have e1 := not_mem_erase_of_count_le_one h1
  have e2 := not_mem_erase_of_count_le_one h2
  have e3 := not_mem_erase_of_count_le_one h3
  have e4 := not_mem_erase_of_count_le_one h4
  by_cases s1 : status = "basic"
  · simp [update_progress, bucketsContainingCount, s1, e1, e2, e3, e4]
  · by_cases s2 : status = "completed"
    · simp [update_progress, bucketsContainingCount, s1, s2, e1, e2, e3, e4]
    · by_cases s3 : status = "partial"
      · simp [update_progress, bucketsContainingCount, s1, s2, s3, e1, e2, e3, e4]
      · by_cases s4 : status = "failed"
        · simp [update_progress, bucketsContainingCount, s1, s2, s3, s4,
            e1, e2, e3, e4]
        · simp [update_progress, bucketsContainingCount, s1, s2, s3, s4,
            e1, e2, e3, e4]

/-- C8 amended, witness: a duplicate-free state with "x" in basic,
updated to "completed". -/
theorem update_progress_bucket_exclusive_witness :
    bucketsContainingCount
      (update_progress "x" "completed" "t" { bucketBasic := ["x"] }) "x" ≤ 1 :=
  update_progress_bucket_exclusive { bucketBasic := ["x"] } "x" "completed" "t"
    (by decide) (by decide) (by decide) (by decide)

theorem string_ne_empty_data {s : String} (h : s ≠ "") : s.data ≠ [] := by
  intro he
  apply h
  cases s
  exact congrArg String.mk he

theorem sanitize_str_ne_empty {s : String} (h : s ≠ "") :
    sanitize_csv_field (CsvValue.str s) ≠ "" := by
  cases hs : s.data with
  | nil => exact absurd hs (string_ne_empty_data h)
  | cons c rest =>
    simp only [sanitize_csv_field, hs]
    split_ifs with hc
    · intro he
      have : ("'" ++ s).data = [] := by rw [he]
      rw [String.data_append, hs] at this
      simp at this
    · exact h

theorem weapon_placeholder_ne_empty (t : String) : "Weapon_" ++ t ≠ "" := by
  intro he
  have hdat : ('W' :: ("eapon_".data ++ t.data)) = ([] : List Char) := by
    have h2 := congrArg String.data he
    rw [String.data_append] at h2
    exact h2
  simp at hdat

/-- C10: the name cell of every weapons CSV row is non-empty; a weapon
whose resolved name is the empty string is emitted with the placeholder
"Weapon_" followed by its ID, and a weapon whose ID is missing from the
weapon-name table resolves to the empty name (hence gets the
placeholder). -/
theorem weapon_name_cell_nonempty (w : Weapon) (inp : Input) (id : Int)
    (rec : WeaponRecord) :
    (weaponRow w).get? 1 ≠ some "" ∧
    (w.name = "" →
      (weaponRow w).get? 1 = some ("Weapon_" ++ toString w.id)) ∧
    (alFind (weaponNamesOf inp) id = none →
      (mkWeapon id rec (weaponNamesOf inp)).name = "") := by
  have hplaceholder : ∀ t : String,
      sanitize_csv_field (CsvValue.str ("Weapon_" ++ t)) = "Weapon_" ++ t := by
    intro t
    have hdata : ("Weapon_" ++ t).data = 'W' :: ("eapon_".data ++ t.data) := by
      rw [String.data_append]
      rfl
    simp only [sanitize_csv_field, hdata]
    rw [if_neg (by decide)]
  refine ⟨?_, fun h => ?_, fun h => ?_⟩
  · by_cases hw : w.name = ""
    · have hcell : (weaponRow w).get? 1 = some ("Weapon_" ++ toString w.id) := by
        simp [weaponRow, hw, hplaceholder]
      rw [hcell]
      intro he
      injection he with he2
      exact weapon_placeholder_ne_empty _ he2
    · simp only [weaponRow, if_neg hw, List.get?]
      intro he
      injection he with he2
      exact sanitize_str_ne_empty hw he2
  · simp [weaponRow, h, hplaceholder]
  · simp [mkWeapon, h]

/-- C10, witness: a weapon with ID 7 and empty name, and an empty
weapon-name table. -/
theorem weapon_name_cell_nonempty_witness :
    (weaponRow { id := 7 }).get? 1 = some ("Weapon_" ++ toString (7 : Int)) ∧
    (mkWeapon 7 {} (weaponNamesOf {})).name = "" :=
  ⟨(weapon_name_cell_nonempty { id := 7 } {} 7 {}).2.1 rfl,
   (weapon_name_cell_nonempty { id := 7 } {} 7 {}).2.2 rfl⟩

/-- C4 (code bug): when the output directory cannot be created,
`export_to_csv` catches the exception and returns normally having
written nothing, but `export_to_json` calls `os.makedirs` outside any
try/except, so the failure escapes it, and `run()` — which calls it —
terminates with the propagated exception instead of merely skipping
that export step. -/
theorem export_json_mkdir_failure_raises (inp : Input) :
    export_to_csv false (parseAll initState inp) = Except.ok [] ∧
    export_to_json false (parseAll initState inp) =
      Except.error "makedirs failed" ∧
    runPipeline false inp = Except.error "makedirs failed" :=
  ⟨rfl, rfl, rfl⟩
